import Mathlib

/-!
Shallow embedding of the traceroute-to-BGP translation engine
(`traceroute_dependency/traceroute_to_bgp.py`): the per-hop classification
(`process_hop`), the per-measurement state machine (`process_message`), and
the statistics summary (`print_stats`).

Python dicts become structures with `Option` fields for optional keys; a
`KeyError` escaping a function is modelled as `Except.error "KeyError"`.
Python sets are modelled as duplicate-free lists with insertion order; the
code only observes them through length, membership, `sorted()` and a
single-element `pop()`, on which the list model agrees with any set order.

The `ASPath` class and the `atlas_api_helper.get_dst_addr` helper are
imported by the script but their source is not part of the repository
snapshot; they are modelled from the specification (see the doc comments
starting with `Modelled from the spec:`).
-/

/-- One traceroute reply (one probe packet's answer at a TTL).
`error` models the presence of a nested `error` key (send failure for some
packets), `err` the inline ICMP error code (already converted to its string
form, as the code does with `str(reply['err'])`), `x` the timeout marker,
`fromAddr` the optional `from` source address. -/
structure Reply where
  error : Bool := false
  err : Option String := none
  x : Bool := false
  fromAddr : Option String := none
deriving DecidableEq, Repr

/-- One raw traceroute hop: `error` models the presence of the `error` key
(packet send failed), `result` the optional list of replies (`hop['result']`
raises `KeyError` when absent), `hop` the optional TTL field. -/
structure Hop where
  error : Bool := false
  result : Option (List Reply) := none
  hop : Option Nat := none
deriving DecidableEq, Repr

/-- One measurement result message. `msm_id`, `prb_id`, `from` and
`result` may all be missing (the script reads `msg['msm_id']`,
`msg['prb_id']` and `msg['result']` unguarded, so a missing key raises);
`dst_addr` stands for the destination address that
`atlas_api_helper.get_dst_addr` resolves from one of several message
shapes. -/
structure Msg where
  msm_id : Option Nat := none
  prb_id : Option Nat := none
  fromAddr : Option String := none
  dst_addr : Option String := none
  result : Option (List Hop) := none
deriving DecidableEq, Repr

/-- The IP-to-topology lookup capability: pure and deterministic.
`ip2asn` returns `"0"` for unknown, ` ip2prefix` the empty string for
unknown, `ip2ixpid` `0` for "not an IXP". -/
structure IPLookup where
  ip2asn : String → String
  ip2prefix : String → String
  ip2ixpid : String → Nat

/-- A raw path element: either one token string or an AS-set tuple. -/
inductive PathToken
  | simple (tok : String)
  | tset (toks : List String)
deriving DecidableEq, Repr

/-- Modelled from the spec: the `ASPath` accumulator state
(`traceroute_dependency/utils/as_path.py`, not in the repository snapshot).
Fields follow spec §3 "ASPath": parallel raw AS-token / IP-token sequences,
IXP-derived raw positions, per-position error annotations, the
too-many-hops and has-errors flags, and the set of addresses already seen
in this path. -/
structure ASPath where
  startAsn : String := ""
  endAsn : String := ""
  rawEntries : List PathToken := []
  rawIpEntries : List PathToken := []
  ixpRawIndexes : List Nat := []
  attributes : List (Nat × String) := []
  tooManyHops : Bool := false
  errorsFlag : Bool := false
  seenAddresses : List String := []
deriving DecidableEq, Repr

/-- Modelled from the spec: set start/end ASN once before hop processing. -/
def ASPath.set_start_end_asn (p : ASPath) (startAsn endAsn : String) : ASPath :=
  { p with startAsn := startAsn, endAsn := endAsn }

/-- Modelled from the spec: append one raw AS-token/IP-token pair; when
`ixp` is set, record the position in `ixpRawIndexes`; a real (non-`*`)
address is added to `seenAddresses`. -/
def ASPath.append (p : ASPath) (tok ip : String) (ixp : Bool) : ASPath :=
  { p with
    rawEntries := p.rawEntries ++ [PathToken.simple tok],
    rawIpEntries := p.rawIpEntries ++ [PathToken.simple ip],
    ixpRawIndexes :=
      if ixp then p.ixpRawIndexes ++ [p.rawEntries.length] else p.ixpRawIndexes,
    seenAddresses :=
      if ip ≠ "*" ∧ ip ∉ p.seenAddresses then p.seenAddresses ++ [ip]
      else p.seenAddresses }

/-- Modelled from the spec: append a whole AS-set tuple (with its parallel
IP tuple) as one path position; record the position in `ixpRawIndexes` when
the set contains an IXP member; real addresses join `seenAddresses`. -/
def ASPath.append_set (p : ASPath) (toks ips : List String) (containsIxp : Bool) : ASPath :=
  { p with
    rawEntries := p.rawEntries ++ [PathToken.tset toks],
    rawIpEntries := p.rawIpEntries ++ [PathToken.tset ips],
    ixpRawIndexes :=
      if containsIxp then p.ixpRawIndexes ++ [p.rawEntries.length] else p.ixpRawIndexes,
    seenAddresses :=
      ips.foldl (fun seen ip =>
        if ip ≠ "*" ∧ ip ∉ seen then seen ++ [ip] else seen) p.seenAddresses }

/-- Modelled from the spec: record an error annotation against the current
(about-to-be-appended) position and set the has-errors flag. -/
def ASPath.mark_hop_error (p : ASPath) (code : String) : ASPath :=
  { p with
    attributes := p.attributes ++ [(p.rawEntries.length, code)],
    errorsFlag := true }

/-- Modelled from the spec: set the too-many-hops flag. -/
def ASPath.flag_too_many_hops (p : ASPath) : ASPath :=
  { p with tooManyHops := true }

/-- Modelled from the spec: whether the address was already observed in
this path (queries `seenAddresses`). -/
def ASPath.contains_ip (p : ASPath) (ip : String) : Bool :=
  ip ∈ p.seenAddresses

/-- Modelled from the spec: terminal accessor for the too-many-hops flag. -/
def ASPath.has_too_many_hops (p : ASPath) : Bool := p.tooManyHops

/-- Modelled from the spec: terminal accessor for the has-errors flag. -/
def ASPath.has_errors (p : ASPath) : Bool := p.errorsFlag

/-- Modelled from the spec: the uncompressed raw paths. -/
def ASPath.get_raw_path (p : ASPath) : List PathToken × List PathToken :=
  (p.rawEntries, p.rawIpEntries)

/-- Modelled from the spec: the raw IXP-derived positions. -/
def ASPath.get_raw_ixp_indexes (p : ASPath) : List Nat := p.ixpRawIndexes

/-- Structural token equality for the consecutive-duplicate collapse:
AS-set tuples compare equal only if their token sets are identical. -/
def tokenEq : PathToken → PathToken → Bool
  | PathToken.simple a, PathToken.simple b => a = b
  | PathToken.tset a, PathToken.tset b =>
      decide (∀ x ∈ a, x ∈ b) && decide (∀ x ∈ b, x ∈ a)
  | _, _ => false

/-- Walk of the consecutive-duplicate collapse: carries the raw index, the
previously kept token, and the reduced accumulators (tokens, IP tokens,
remapped IXP indexes). -/
def reduceGo (ixpRaw : List Nat) :
    List PathToken → List PathToken → Nat → Option PathToken →
    List PathToken × List PathToken × List Nat →
    List PathToken × List PathToken × List Nat
  | [], _, _, _, acc => acc
  | _ :: _, [], _, _, acc => acc
  | t :: ts, ip :: ips, i, prev, (accT, accI, accX) =>
    if (match prev with | some pt => tokenEq pt t | none => false) then
      reduceGo ixpRaw ts ips (i + 1) prev (accT, accI, accX)
    else
      reduceGo ixpRaw ts ips (i + 1) (some t)
        (accT ++ [t], accI ++ [ip],
         if i ∈ ixpRaw then accX ++ [accT.length] else accX)

/-- Modelled from the spec: collapse strictly-consecutive duplicate tokens,
carrying first-occurrence IP tokens and the IXP index remap (spec §4.3
steps 1 and 4). -/
def ASPath.reduceCore (p : ASPath) : List PathToken × List PathToken × List Nat :=
  reduceGo p.ixpRawIndexes p.rawEntries p.rawIpEntries 0 none ([], [], [])

/-- Modelled from the spec: number of collapsed tokens excluding the
`as|0` timeout placeholder (spec §4.3 step 2). -/
def reducedLength (toks : List PathToken) : Nat :=
  toks.countP (fun t => t ≠ PathToken.simple "as|0")

/-- The flat counter map of the run (`stats` global), plus the distinct
destination-ASN scope set (modelled as an insertion-ordered duplicate-free
list). -/
structure Stats where
  total : Nat := 0
  no_dst_addr : Nat := 0
  no_dst_asn : Nat := 0
  no_prefix : Nat := 0
  no_from : Nat := 0
  no_peer_asn : Nat := 0
  duplicate : Nat := 0
  changed_ip : Nat := 0
  accepted : Nat := 0
  dnf : Nat := 0
  empty_path : Nat := 0
  end_as_in_path : Nat := 0
  start_as_in_path : Nat := 0
  single_as : Nat := 0
  used : Nat := 0
  too_many_hops : Nat := 0
  errors : Nat := 0
  start_as_missing : Nat := 0
  end_as_missing : Nat := 0
  ixp_in_path : Nat := 0
  as_set : Nat := 0
  scopes : List String := []
deriving DecidableEq, Repr

def Stats.incTotal (s : Stats) : Stats := { s with total := s.total + 1 }
def Stats.incNoDstAddr (s : Stats) : Stats := { s with no_dst_addr := s.no_dst_addr + 1 }
def Stats.incNoDstAsn (s : Stats) : Stats := { s with no_dst_asn := s.no_dst_asn + 1 }
def Stats.incNoPrefix (s : Stats) : Stats := { s with no_prefix := Stats.no_prefix s + 1 }
def Stats.incNoFrom (s : Stats) : Stats := { s with no_from := s.no_from + 1 }
def Stats.incNoPeerAsn (s : Stats) : Stats := { s with no_peer_asn := s.no_peer_asn + 1 }
def Stats.incDuplicate (s : Stats) : Stats := { s with duplicate := s.duplicate + 1 }
def Stats.incChangedIp (s : Stats) : Stats := { s with changed_ip := s.changed_ip + 1 }
def Stats.incAccepted (s : Stats) : Stats := { s with accepted := s.accepted + 1 }
def Stats.incDnf (s : Stats) : Stats := { s with dnf := s.dnf + 1 }
def Stats.incEmptyPath (s : Stats) : Stats := { s with empty_path := s.empty_path + 1 }
def Stats.incSingleAs (s : Stats) : Stats := { s with single_as := s.single_as + 1 }
def Stats.incUsed (s : Stats) : Stats := { s with used := s.used + 1 }
def Stats.incTooManyHops (s : Stats) : Stats := { s with too_many_hops := s.too_many_hops + 1 }
def Stats.incErrors (s : Stats) : Stats := { s with errors := s.errors + 1 }
def Stats.incIxpInPath (s : Stats) : Stats := { s with ixp_in_path := s.ixp_in_path + 1 }
def Stats.incAsSet (s : Stats) : Stats := { s with as_set := s.as_set + 1 }

/-- `stats['scopes'].add(dst_asn)` guarded by a membership test. -/
def Stats.addScope (s : Stats) (asn : String) : Stats :=
  { s with scopes := if asn ∈ s.scopes then s.scopes else s.scopes ++ [asn] }

/-- Modelled from the spec: `get_reduced_path(stats)` returns the reduced
AS path, the aligned IP path and the path length, updating the run
statistics (spec §4.3 step 3).  `empty_path` is incremented here when the
length is 0 and `as_set` when a collapsed token is a set; the `single_as`
counter is visibly incremented by the caller (`process_message`), and the
start/end-AS anomaly counters, whose exact trigger conditions the spec
leaves open (§9), are not modelled. -/
def ASPath.get_reduced_path (p : ASPath) (stats : Stats) :
    List PathToken × List PathToken × Nat × Stats :=
  let rt := p.reduceCore.1
  let rip := p.reduceCore.2.1
  let len := reducedLength rt
  let stats := if len = 0 then stats.incEmptyPath else stats
  let stats :=
    if rt.any (fun t => match t with | PathToken.tset _ => true | _ => false) then
      stats.incAsSet
    else stats
  (rt, rip, len, stats)

/-- Modelled from the spec: the IXP positions of the reduced path. -/
def ASPath.get_reduced_ixp_indexes (p : ASPath) : List Nat :=
  p.reduceCore.2.2

/-- Set-style insertion into a duplicate-free list. -/
def insertNew (a : String) (l : List String) : List String :=
  if a ∈ l then l else l ++ [a]

/-- Lexicographic insertion sort, mirroring Python's `sorted()` on a set of
strings. -/
def sortStrings (l : List String) : List String :=
  List.insertionSort (fun a b => a ≤ b) l

/-- `' '.join(map(str, sorted(errors_in_hop)))`. -/
def errorJoin (errs : List String) : String :=
  String.intercalate " " (sortStrings errs)

/-- Result of the reply loop of `process_hop` (lines 75-101): either a
nested send-failure marker was found (early `return True` with the `dnf`
counter incremented) or the collected observed addresses and inline error
codes. -/
inductive ScanResult
  | dnf
  | ok (addrs errs : List String)
deriving DecidableEq, Repr

/-- The reply loop of `process_hop`: skip a suppressed erroneous reply
whose address the path has seen, turn timeouts and `from`-less replies into
the `*` placeholder, otherwise register the address and collect any inline
error code. -/
def scanReplies (path : ASPath) : List Reply → List String → List String → ScanResult
  | [], addrs, errs => ScanResult.ok addrs errs
  | r :: rest, addrs, errs =>
    if r.error then ScanResult.dnf
    else if (match r.err, r.fromAddr with
             | some _, some f => path.contains_ip f
             | _, _ => false) then
      scanReplies path rest addrs errs
    else if r.x then scanReplies path rest (insertNew "*" addrs) errs
    else
      match r.fromAddr with
      | none => scanReplies path rest (insertNew "*" addrs) errs
      | some f =>
        match r.err with
        | some e => scanReplies path rest (insertNew f addrs) (insertNew e errs)
        | none => scanReplies path rest (insertNew f addrs) errs

/-- The ambiguous-hop loop of `process_hop` (lines 133-146): build the
AS-token and IP-token tuples member by member; an IXP member contributes
four aligned slots (its address repeated to keep the tuples equal length),
a non-IXP member one. -/
def buildSet (lookup : IPLookup) : List String → List String × List String × Bool
  | [] => ([], [], false)
  | a :: rest =>
    let ixp := lookup.ip2ixpid a
    let r := buildSet lookup rest
    if ixp ≠ 0 then
      (("ix|" ++ toString ixp) ::
         ("ix|" ++ toString ixp ++ ";as|" ++ lookup.ip2asn a) ::
         ("ip|" ++ a) :: ("as|" ++ lookup.ip2asn a) :: r.1,
       a :: a :: a :: a :: r.2.1, true)
    else
      (("as|" ++ lookup.ip2asn a) :: r.1, a :: r.2.1, r.2.2)

/-- The single-address branch of `process_hop` (lines 150-163): the `*`
placeholder appends the timeout pair; a real address is marked with its
hop errors (if any), expanded into the IXP triple when it resolves to an
IXP, and finished with the plain AS entry. -/
def singleBranch (lookup : IPLookup) (path : ASPath) (errs : List String)
    (address : String) : ASPath :=
  if address = "*" then path.append "as|0" "*" false
  else
    let path := if errs.isEmpty then path else path.mark_hop_error (errorJoin errs)
    let ixp := lookup.ip2ixpid address
    let path :=
      if ixp ≠ 0 then
        ((path.append ("ix|" ++ toString ixp) address true).append
            ("ix|" ++ toString ixp ++ ";as|" ++ lookup.ip2asn address) address true).append
          ("ip|" ++ address) address true
      else path
    path.append ("as|" ++ lookup.ip2asn address) address false

/-- `process_hop`: classify one raw hop and fold it into the path.
Returns `(abort, path, stats)` inside `Except`; `abort = true` is Python's
`return True` ("does not finish"), `Except.error "KeyError"` models the
unguarded `hop['result']` access (and the impossible empty `set.pop()`). -/
def process_hop (hop : Hop) (lookup : IPLookup) (path : ASPath) (stats : Stats) :
    Except String (Bool × ASPath × Stats) :=
  if hop.error then Except.ok (true, path, stats.incDnf)
  else
    match hop.result with
    | none => Except.error "KeyError"
    | some replies =>
      match scanReplies path replies [] [] with
      | ScanResult.dnf => Except.ok (true, path, stats.incDnf)
      | ScanResult.ok addrs errs =>
        if addrs.length = 0 then Except.ok (true, path, stats.incDnf)
        else
          match hop.hop with
          | none => Except.ok (true, path, stats.incDnf)
          | some ttl =>
            if ttl = 255 then
              Except.ok (false, (path.append "as|0" "*" false).flag_too_many_hops, stats)
            else
              let addrs2 := if 1 < addrs.length then addrs.erase "*" else addrs
              if 1 < addrs2.length then
                let bs := buildSet lookup (sortStrings addrs2)
                let path :=
                  if errs.isEmpty then path else path.mark_hop_error (errorJoin errs)
                Except.ok (false, path.append_set bs.1 bs.2.1 bs.2.2, stats)
              else
                match addrs2 with
                | [] => Except.error "KeyError"
                | address :: _ =>
                  Except.ok (false, singleBranch lookup path errs address, stats)

/-- Modelled from the spec: `atlas_api_helper.get_dst_addr` (source not in
the repository snapshot) resolves the destination address from one of
several message shapes; we model its result as an optional field of the
message. -/
def get_dst_addr (m : Msg) : Option String := m.dst_addr

/-- Fold every raw hop through `process_hop` in order; an aborting hop
stops the fold with `abort = true` (the caller then discards the
measurement). Mirrors the `for hop in traceroute` loop. -/
def processHops (lookup : IPLookup) :
    List Hop → ASPath → Stats → Except String (Bool × ASPath × Stats)
  | [], path, stats => Except.ok (false, path, stats)
  | hop :: rest, path, stats =>
    match process_hop hop lookup path stats with
    | Except.error e => Except.error e
    | Except.ok (abort, path, stats) =>
      if abort then Except.ok (true, path, stats)
      else processHops lookup rest path stats

/-- The probe-id half of the allow-list filter (the second disjunct of
line 175): `msg['prb_id']` is only read when the probe filter is active,
and raises `KeyError` when the key is missing. -/
def checkProbeFilter (msg : Msg) (probe_ids : Option (List Nat)) :
    Except String Bool :=
  match probe_ids with
  | none => Except.ok false
  | some ids =>
    match msg.prb_id with
    | none => Except.error "KeyError"
    | some p => Except.ok (decide (p ∉ ids))

/-- The measurement-id / probe-id allow-list filter (line 175), with
Python's short-circuit evaluation: `msg['msm_id']` is read (unguarded —
`KeyError` when missing) only when the measurement filter is active, and
`msg['prb_id']` only when the probe filter is active and the measurement
filter did not already match. -/
def checkFilter (msg : Msg) (msm_ids probe_ids : Option (List Nat)) :
    Except String Bool :=
  match msm_ids with
  | none => checkProbeFilter msg probe_ids
  | some ids =>
    match msg.msm_id with
    | none => Except.error "KeyError"
    | some m =>
      if decide (m ∉ ids) then Except.ok true
      else checkProbeFilter msg probe_ids

/-- Association-list lookup for `probe_ip_map`. -/
def mapFind (k : Nat) : List (Nat × String) → Option String
  | [] => none
  | (k2, v) :: rest => if k = k2 then some v else mapFind k rest

/-- Association-list overwrite for `probe_ip_map[prb_id] = from`. -/
def mapPut (k : Nat) (v : String) : List (Nat × String) → List (Nat × String)
  | [] => [(k, v)]
  | (k2, v2) :: rest => if k = k2 then (k, v) :: rest else (k2, v2) :: mapPut k v rest

/-- Set-style add for `seen_peer_prefixes`. -/
def addSeen (key : String × String) (seen : List (String × String)) :
    List (String × String) :=
  if key ∈ seen then seen else seen ++ [key]

/-- The fields block of an output record. `pfx` carries the `prefix` key. -/
structure OutputFields where
  as_path : List PathToken
  ip_path : List PathToken
  ixp_path_indexes : List Nat
  full_as_path : List PathToken
  full_ip_path : List PathToken
  full_ixp_path_indexes : List Nat
  pfx : String
  path_attributes : List (Nat × String)
deriving DecidableEq, Repr

/-- One synthesized RIB-entry-shaped output record (`ret` at line 235). -/
structure OutputRecord where
  status : String
  time : Nat
  rtype : String
  peer_address : String
  peer_asn : String
  prb_id : Nat
  fields : OutputFields
deriving DecidableEq, Repr

/-- The path-processing tail of `process_message` (lines 216-259), factored
out for proof modularity: build the `ASPath`, fold the hops, abort on an
unreachable path, reduce, reject empty/single-AS reduced paths, and
otherwise assemble the output record and final statistics.  All message
fields it needs (`msgFrom`, `peer_asn`, `dst_asn`, `pfx`, `prb`) arrive
resolved, `probe_ip_map` already updated and `stats` already counted
accepted. -/
def processPath (lookup : IPLookup)
    (seen_peer_prefixes : List (String × String))
    (probe_ip_map : List (Nat × String))
    (stats : Stats)
    (unified_timestamp : Nat)
    (msgFrom peer_asn dst_asn pfx : String) (prb : Nat)
    (traceroute : List Hop) :
    Except String
      (Option OutputRecord × List (String × String) × List (Nat × String) × Stats) :=
  let path := ASPath.set_start_end_asn {} peer_asn dst_asn
  match processHops lookup traceroute path stats with
  | Except.error e => Except.error e
  | Except.ok (abort, path, stats) =>
    if abort then
      Except.ok (none, seen_peer_prefixes, probe_ip_map, stats)
    else
      let red := path.get_reduced_path stats
      let reduced_path := red.1
      let reduced_ip_path := red.2.1
      let reduced_path_len := red.2.2.1
      let stats := red.2.2.2
      if reduced_path_len = 0 then
        Except.ok (none, seen_peer_prefixes, probe_ip_map, stats)
      else if reduced_path_len = 1 then
        Except.ok (none, seen_peer_prefixes, probe_ip_map, stats.incSingleAs)
      else
        let raw_path := path.get_raw_path.1
        let raw_ip_path := path.get_raw_path.2
        let stats := stats.incUsed
        let stats :=
          if path.has_too_many_hops then stats.incTooManyHops else stats
        let stats := if path.has_errors then stats.incErrors else stats
        let ret : OutputRecord :=
          { status := "valid",
            time := unified_timestamp,
            rtype := "R",
            peer_address := msgFrom,
            peer_asn := peer_asn,
            prb_id := prb,
            fields :=
              { as_path := reduced_path,
                ip_path := reduced_ip_path,
                ixp_path_indexes := path.get_reduced_ixp_indexes,
                full_as_path := raw_path,
                full_ip_path := raw_ip_path,
                full_ixp_path_indexes := path.get_raw_ixp_indexes,
                pfx := pfx,
                path_attributes := path.attributes } }
        let stats :=
          if path.get_reduced_ixp_indexes ≠ [] then stats.incIxpInPath else stats
        let stats := stats.addScope dst_asn
        Except.ok (some ret, addSeen (msgFrom, pfx) seen_peer_prefixes,
          probe_ip_map, stats)

/-- `process_message`: the per-measurement state machine.  The globals
(`stats`, `probe_ip_map`) and the run-scoped `seen_peer_prefixes` set are
threaded explicitly; the result is the produced record (`none` = Python's
empty dict) together with the updated run state, or `Except.error` when an
exception (unguarded `msg['prb_id']` / `msg['result']` / `hop['result']`
access) escapes. -/
def process_message (msg : Msg) (lookup : IPLookup)
    (seen_peer_prefixes : List (String × String))
    (probe_ip_map : List (Nat × String))
    (stats : Stats)
    (unified_timestamp : Nat)
    (msm_ids : Option (List Nat))
    (probe_ids : Option (List Nat))
    (target_asn : Option String)
    (include_duplicates : Bool) :
    Except String
      (Option OutputRecord × List (String × String) × List (Nat × String) × Stats) :=
  match checkFilter msg msm_ids probe_ids with
  | Except.error e => Except.error e
  | Except.ok true => Except.ok (none, seen_peer_prefixes, probe_ip_map, stats)
  | Except.ok false =>
    let stats := stats.incTotal
    match get_dst_addr msg with
    | none => Except.ok (none, seen_peer_prefixes, probe_ip_map, stats.incNoDstAddr)
    | some dst_addr =>
      if dst_addr = "" then
        Except.ok (none, seen_peer_prefixes, probe_ip_map, stats.incNoDstAddr)
      else
        let dst_asn := lookup.ip2asn dst_addr
        if dst_asn = "0" then
          Except.ok (none, seen_peer_prefixes, probe_ip_map, stats.incNoDstAsn)
        else if (match target_asn with
                 | some t => decide (dst_asn ≠ t)
                 | none => false) then
          Except.ok (none, seen_peer_prefixes, probe_ip_map, stats)
        else
          let pfx := IPLookup.ip2prefix lookup dst_addr
          if pfx = "" then
            Except.ok (none, seen_peer_prefixes, probe_ip_map, stats.incNoPrefix)
          else
            match msg.fromAddr with
            | none => Except.ok (none, seen_peer_prefixes, probe_ip_map, stats.incNoFrom)
            | some msgFrom =>
              if msgFrom = "" then
                Except.ok (none, seen_peer_prefixes, probe_ip_map, stats.incNoFrom)
              else
                let peer_asn := lookup.ip2asn msgFrom
                if peer_asn = "0" then
                  Except.ok (none, seen_peer_prefixes, probe_ip_map, stats.incNoPeerAsn)
                else
                  let key := (msgFrom, pfx)
                  if decide (key ∈ seen_peer_prefixes) && !include_duplicates then
                    Except.ok (none, seen_peer_prefixes, probe_ip_map, stats.incDuplicate)
                  else
                    match msg.prb_id with
                    | none => Except.error "KeyError"
                    | some prb =>
                      let stats :=
                        match mapFind prb probe_ip_map with
                        | some old => if old ≠ msgFrom then stats.incChangedIp else stats
                        | none => stats
                      let probe_ip_map := mapPut prb msgFrom probe_ip_map
                      let stats := stats.incAccepted
                      match msg.result with
                      | none => Except.error "KeyError"
                      | some traceroute =>
                        processPath lookup seen_peer_prefixes probe_ip_map stats
                          unified_timestamp msgFrom peer_asn dst_asn pfx prb
                          traceroute

/-- Python float division, modelled over `ℚ`; dividing by zero raises
`ZeroDivisionError`. -/
def pyDiv (a b : ℚ) : Except String ℚ :=
  if b = 0 then Except.error "ZeroDivisionError" else Except.ok (a / b)

/-- `print_stats`: prints the percentage table.  The formatted table text
itself is not modelled; the model keeps the early `'No values.'` return and
the three percentage divisors computed, in source order, before any table
line is printed. -/
def print_stats (stats : Stats) : Except String String :=
  if stats.total = 0 then Except.ok "No values."
  else
    match pyDiv 100 (stats.total : ℚ) with
    | Except.error e => Except.error e
    | Except.ok _ =>
      match pyDiv 100 (stats.accepted : ℚ) with
      | Except.error e => Except.error e
      | Except.ok _ =>
        match pyDiv 100 (stats.used : ℚ) with
        | Except.error e => Except.error e
        | Except.ok _ => Except.ok "stats table"

/-! ### Concrete fixtures for counterexamples and witnesses -/

/-- A small concrete lookup snapshot: a peer at AS 64500, a destination in
`192.0.2.0/24` at AS 64501, two transit routers, and one IXP address. -/
def cLookup : IPLookup :=
  { ip2asn := fun a =>
      if a = "10.0.0.1" then "64500"
      else if a = "192.0.2.9" then "64501"
      else if a = "10.1.1.1" then "64502"
      else if a = "10.2.2.2" then "64503"
      else if a = "10.9.9.9" then "64510"
      else "0",
    ip2prefix := fun a => if a = "192.0.2.9" then "192.0.2.0/24" else "",
    ip2ixpid := fun a => if a = "10.9.9.9" then 7 else 0 }

/-- A well-formed two-hop traceroute message. -/
def cMsgGood : Msg :=
  { msm_id := some 1, prb_id := some 42, fromAddr := some "10.0.0.1",
    dst_addr := some "192.0.2.9",
    result := some [{ result := some [{ fromAddr := some "10.1.1.1" }], hop := some 1 },
                    { result := some [{ fromAddr := some "10.2.2.2" }], hop := some 2 }] }

/-- The same message except that its only hop carries neither an `error`
key nor a `result` key. -/
def cMsgBadHop : Msg :=
  { msm_id := some 1, prb_id := some 42, fromAddr := some "10.0.0.1",
    dst_addr := some "192.0.2.9", result := some [{ hop := some 1 }] }

/-- The same message except that its only hop carries a send-failure
`error` marker, so the path is unreachable ("does not finish"). -/
def cMsgErrHop : Msg :=
  { msm_id := some 1, prb_id := some 42, fromAddr := some "10.0.0.1",
    dst_addr := some "192.0.2.9", result := some [{ error := true }] }

/-- A message identical to `cMsgGood` except that the `msm_id` key is
missing. -/
def cMsgNoMsm : Msg :=
  { msm_id := none, prb_id := some 42, fromAddr := some "10.0.0.1",
    dst_addr := some "192.0.2.9",
    result := some [{ result := some [{ fromAddr := some "10.1.1.1" }], hop := some 1 },
                    { result := some [{ fromAddr := some "10.2.2.2" }], hop := some 2 }] }

/-- A TTL-255 hail-mary hop one of whose replies carries a nested
send-failure `error` marker. -/
def cHop255Err : Hop := { hop := some 255, result := some [{ error := true }] }

/-- A TTL-255 hail-mary hop with a genuine reply carrying an inline error
code. -/
def cHop255InlineErr : Hop :=
  { hop := some 255, result := some [{ fromAddr := some "10.1.1.1", err := some "5" }] }

/-- A path that has already seen the address `10.1.1.1`. -/
def cPathSeen : ASPath := { seenAddresses := ["10.1.1.1"] }

/-- A hop answering once from a real address and once with a timeout. -/
def cHopRealPlusStar : Hop :=
  { hop := some 3, result := some [{ fromAddr := some "10.1.1.1" }, { x := true }] }

/-- A hop whose two replies both timed out. -/
def cHopAllTimeout : Hop :=
  { hop := some 3, result := some [{ x := true }, { x := true }] }

/-- A hop with a single reply from the IXP address. -/
def cHopIxp : Hop :=
  { hop := some 3, result := some [{ fromAddr := some "10.9.9.9" }] }

/-- A hop with a single reply from a plain (non-IXP) address. -/
def cHopPlain : Hop :=
  { hop := some 3, result := some [{ fromAddr := some "10.1.1.1" }] }

/-- An ambiguous hop answered from two distinct plain addresses. -/
def cHopSet : Hop :=
  { hop := some 3,
    result := some [{ fromAddr := some "10.2.2.2" }, { fromAddr := some "10.1.1.1" }] }

/-- A hop with a single usable reply carrying inline error code `5`. -/
def cHopInlineErr : Hop :=
  { hop := some 3, result := some [{ fromAddr := some "10.1.1.1", err := some "5" }] }

/-- The output record produced for `cMsgGood` under `cLookup`. -/
def cGoodRet : OutputRecord :=
  { status := "valid", time := 1000, rtype := "R",
    peer_address := "10.0.0.1", peer_asn := "64500", prb_id := 42,
    fields :=
      { as_path := [PathToken.simple "as|64502", PathToken.simple "as|64503"],
        ip_path := [PathToken.simple "10.1.1.1", PathToken.simple "10.2.2.2"],
        ixp_path_indexes := [],
        full_as_path := [PathToken.simple "as|64502", PathToken.simple "as|64503"],
        full_ip_path := [PathToken.simple "10.1.1.1", PathToken.simple "10.2.2.2"],
        full_ixp_path_indexes := [],
        pfx := "192.0.2.0/24",
        path_attributes := [] } }

/-! ### Shared helper lemmas -/

theorem insertNew_nodup (a : String) (l : List String) (h : l.Nodup) :
    (insertNew a l).Nodup := by
  unfold insertNew
  split
  · exact h
  · next hmem => simpa [List.nodup_append] using ⟨h, by simpa using hmem⟩

theorem mem_insertNew_of_mem (a b : String) (l : List String) (h : b ∈ l) :
    b ∈ insertNew a l := by
  unfold insertNew
  split
  · exact h
  · exact List.mem_append_left _ h

theorem self_mem_insertNew (a : String) (l : List String) : a ∈ insertNew a l := by
  unfold insertNew
  split
  · assumption
  · simp

theorem scan_ok_nodup (path : ASPath) :
    ∀ (replies : List Reply) (acc errAcc addrs errs : List String),
      acc.Nodup → scanReplies path replies acc errAcc = ScanResult.ok addrs errs →
      addrs.Nodup := by
  intro replies
  induction replies with
  | nil =>
    intro acc errAcc addrs errs hnd h
    simp only [scanReplies] at h
    cases h
    exact hnd
  | cons r rest ih =>
    intro acc errAcc addrs errs hnd h
    simp only [scanReplies] at h
    split at h
    · cases h
    · split at h
      · exact ih _ _ _ _ hnd h
      · split at h
        · exact ih _ _ _ _ (insertNew_nodup _ _ hnd) h
        · split at h
          · exact ih _ _ _ _ (insertNew_nodup _ _ hnd) h
          · split at h
            · exact ih _ _ _ _ (insertNew_nodup _ _ hnd) h
            · exact ih _ _ _ _ (insertNew_nodup _ _ hnd) h

theorem scan_ok_err_real (path : ASPath) :
    ∀ (replies : List Reply) (acc errAcc addrs errs : List String),
      (∀ r ∈ replies, r.fromAddr ≠ some "*") →
      (errAcc ≠ [] → ∃ a ∈ acc, a ≠ "*") →
      scanReplies path replies acc errAcc = ScanResult.ok addrs errs →
      errs ≠ [] → ∃ a ∈ addrs, a ≠ "*" := by
  intro replies
  induction replies with
  | nil =>
    intro acc errAcc addrs errs _ hinv h
    simp only [scanReplies] at h
    cases h
    exact hinv
  | cons r rest ih =>
    intro acc errAcc addrs errs hwf hinv h
    have hwfr : r.fromAddr ≠ some "*" := hwf r (by simp)
    have hwfrest : ∀ x ∈ rest, x.fromAddr ≠ some "*" := fun x hx => hwf x (by simp [hx])
    simp only [scanReplies] at h
    split at h
    · cases h
    · split at h
      · exact ih _ _ _ _ hwfrest hinv h
      · split at h
        · refine ih _ _ _ _ hwfrest ?_ h
          intro hne
          obtain ⟨a, ha, hne2⟩ := hinv hne
          exact ⟨a, mem_insertNew_of_mem _ _ _ ha, hne2⟩
        · split at h
          · refine ih _ _ _ _ hwfrest ?_ h
            intro hne
            obtain ⟨a, ha, hne2⟩ := hinv hne
            exact ⟨a, mem_insertNew_of_mem _ _ _ ha, hne2⟩
          · next f hf =>
            split at h
            · next e he =>
              refine ih _ _ _ _ hwfrest ?_ h
              intro _
              refine ⟨f, self_mem_insertNew _ _, ?_⟩
              intro hcontr
              exact hwfr (by rw [hf, hcontr])
            · refine ih _ _ _ _ hwfrest ?_ h
              intro hne
              obtain ⟨a, ha, hne2⟩ := hinv hne
              exact ⟨a, mem_insertNew_of_mem _ _ _ ha, hne2⟩

/-! ### Claim theorems -/

/-- C10: `print_stats` raises a `ZeroDivisionError` whenever
`stats['total'] > 0` but `stats['accepted'] == 0` or `stats['used'] == 0`;
only the `total == 0` case is guarded (it prints `'No values.'` and
returns). -/
theorem print_stats_division_guard (s : Stats) :
    (s.total = 0 → print_stats s = Except.ok "No values.") ∧
    (s.total ≠ 0 → s.accepted = 0 ∨ s.used = 0 →
      print_stats s = Except.error "ZeroDivisionError") := by
  constructor
  · intro h
    simp [print_stats, h]
  · intro h h2
    have ht : (s.total : ℚ) ≠ 0 := by exact_mod_cast h
    by_cases ha : s.accepted = 0
    · simp [print_stats, h, pyDiv, ht, ha]
    · have ha2 : (s.accepted : ℚ) ≠ 0 := by exact_mod_cast ha
      have hu : s.used = 0 := h2.resolve_left ha
      simp [print_stats, h, pyDiv, ht, ha2, hu]

/-- Witness for C10 at concrete counters: one processed record with zero
accepted/used divides by zero, and the empty run prints `'No values.'`. -/
theorem print_stats_division_guard_witness :
    print_stats { total := 1 } = Except.error "ZeroDivisionError" ∧
    print_stats {} = Except.ok "No values." :=
  ⟨(print_stats_division_guard { total := 1 }).2 (by decide) (Or.inl rfl),
   (print_stats_division_guard {}).1 rfl⟩

/-- C8: a reply carrying an inline error code (`err`) whose source address
is already in the path's seen-address set is skipped, contributing nothing
to the hop's observed addresses or errors; a reply carrying an inline error
code whose (non-timeout) address is not yet in the path is registered as a
usable address and its error code collected. -/
theorem scan_err_reply_handling (path : ASPath) (r : Reply) (rest : List Reply)
    (addrs errs : List String) (e f : String)
    (hNoFail : r.error = false) (hErr : r.err = some e) (hFrom : r.fromAddr = some f) :
    (path.contains_ip f = true →
      scanReplies path (r :: rest) addrs errs = scanReplies path rest addrs errs) ∧
    (path.contains_ip f = false → r.x = false →
      scanReplies path (r :: rest) addrs errs
        = scanReplies path rest (insertNew f addrs) (insertNew e errs)) := by
  constructor
  · intro hSeen
    simp [scanReplies, hNoFail, hErr, hFrom, hSeen]
  · intro hSeen hx
    simp [scanReplies, hNoFail, hErr, hFrom, hSeen, hx]

/-- Witness for C8: over a path that has seen `10.1.1.1`, an erroneous
reply from `10.1.1.1` is dropped while an erroneous reply from the fresh
`10.2.2.2` registers both the address and the code. -/
theorem scan_err_reply_handling_witness :
    scanReplies cPathSeen [{ err := some "5", fromAddr := some "10.1.1.1" }] [] []
      = scanReplies cPathSeen [] [] [] ∧
    scanReplies cPathSeen [{ err := some "5", fromAddr := some "10.2.2.2" }] [] []
      = scanReplies cPathSeen [] (insertNew "10.2.2.2" []) (insertNew "5" []) :=
  ⟨(scan_err_reply_handling cPathSeen _ [] [] [] "5" "10.1.1.1" rfl rfl rfl).1 (by decide),
   (scan_err_reply_handling cPathSeen _ [] [] [] "5" "10.2.2.2" rfl rfl rfl).2 (by decide) rfl⟩

/-- C2 (counterexample): a hop whose `hop` field is 255 but whose reply
content contains a nested send-failure marker is aborted (`True` returned,
`dnf` counted) instead of being turned into the timeout placeholder — the
reply content is *not* disregarded on the abort checks. -/
theorem hop255_error_reply_aborts :
    cHop255Err.hop = some 255 ∧
    process_hop cHop255Err cLookup {} {} = Except.ok (true, {}, Stats.incDnf {}) :=
  ⟨rfl, rfl⟩

/-- C2 (amended): for a hop with `hop = 255` that is not aborted earlier —
no `error` key, no reply with a nested `error` marker, and at least one
observed address — `process_hop` appends exactly the `as|0`/`*` timeout
pair, flags too-many-hops, and returns `False`, regardless of which
addresses or error codes the replies carried. -/
theorem hop255_always_timeout (hop : Hop) (lookup : IPLookup) (path : ASPath)
    (stats : Stats) (replies : List Reply) (addrs errs : List String)
    (hNoErr : hop.error = false) (hRes : hop.result = some replies)
    (hScan : scanReplies path replies [] [] = ScanResult.ok addrs errs)
    (hNonEmpty : addrs ≠ []) (hTtl : hop.hop = some 255) :
    process_hop hop lookup path stats
      = Except.ok (false, (path.append "as|0" "*" false).flag_too_many_hops, stats) ∧
    ((path.append "as|0" "*" false).flag_too_many_hops).tooManyHops = true := by
  have hlen : ¬ addrs.length = 0 := by
    simpa [List.length_eq_zero] using hNonEmpty
  constructor
  · simp [process_hop, hNoErr, hRes, hScan, hlen, hTtl]
  · simp [ASPath.flag_too_many_hops]

/-- Witness for C2 at a concrete hail-mary hop with a real reply. -/
theorem hop255_always_timeout_witness :
    process_hop { hop := some 255, result := some [{ fromAddr := some "10.1.1.1" }] }
        cLookup {} {}
      = Except.ok (false, (ASPath.append {} "as|0" "*" false).flag_too_many_hops, {}) ∧
    ((ASPath.append {} "as|0" "*" false).flag_too_many_hops).tooManyHops = true :=
  hop255_always_timeout _ cLookup {} {} [{ fromAddr := some "10.1.1.1" }]
    ["10.1.1.1"] [] rfl rfl rfl (by decide) rfl

/-- C7: when the distinct reply addresses include both the `*` timeout
placeholder and a real address, the `*` is discarded before
classification: one real address plus `*` is classified single on the real
address, while a hop whose only observed address is `*` appends the
`as|0`/`*` timeout pair. -/
theorem star_placeholder_discarded (hop : Hop) (lookup : IPLookup) (path : ASPath)
    (stats : Stats) (replies : List Reply) (addrs errs : List String)
    (ttl : Nat) (a : String)
    (hNoErr : hop.error = false) (hRes : hop.result = some replies)
    (hScan : scanReplies path replies [] [] = ScanResult.ok addrs errs)
    (hTtl : hop.hop = some ttl) (h255 : ttl ≠ 255) :
    (addrs = ["*"] →
      process_hop hop lookup path stats
        = Except.ok (false, path.append "as|0" "*" false, stats)) ∧
    (a ≠ "*" → addrs = [a, "*"] ∨ addrs = ["*", a] →
      process_hop hop lookup path stats
        = Except.ok (false, singleBranch lookup path errs a, stats)) := by
  constructor
  · intro hstar
    subst hstar
    simp [process_hop, hNoErr, hRes, hScan, hTtl, h255, singleBranch]
  · intro ha horn
    rcases horn with h2 | h2 <;> subst h2 <;>
      simp [process_hop, hNoErr, hRes, hScan, hTtl, h255, List.erase_cons, ha]

/-- Witness for C7: a hop answering once from `10.1.1.1` and once with a
timeout is classified single on `10.1.1.1`; a hop with only timeouts
appends the timeout pair. -/
theorem star_placeholder_discarded_witness :
    process_hop cHopRealPlusStar cLookup {} {}
      = Except.ok (false, singleBranch cLookup {} [] "10.1.1.1", {}) ∧
    process_hop cHopAllTimeout cLookup {} {}
      = Except.ok (false, ASPath.append {} "as|0" "*" false, {}) :=
  ⟨(star_placeholder_discarded cHopRealPlusStar cLookup {} {}
      [{ fromAddr := some "10.1.1.1" }, { x := true }]
      ["10.1.1.1", "*"] [] 3 "10.1.1.1" rfl rfl rfl rfl (by decide)).2
      (by decide) (Or.inl rfl),
   (star_placeholder_discarded cHopAllTimeout cLookup {} {}
      [{ x := true }, { x := true }] ["*"] [] 3 "x-unused" rfl rfl rfl rfl
      (by decide)).1 rfl⟩

/-- C5: a single-address hop resolving to a non-zero IXP id appends exactly
four path entries in order — `ix|N`, `ix|N;as|M`, `ip|addr`, then the plain
`as|M` — each paired with the same source address in the parallel IP
sequence and the first three marked as IXP-derived; a non-IXP single
address appends only the plain `as|M` entry. -/
theorem single_ixp_appends (hop : Hop) (lookup : IPLookup) (path : ASPath)
    (stats : Stats) (replies : List Reply) (addrs errs : List String)
    (ttl : Nat) (a : String)
    (hNoErr : hop.error = false) (hRes : hop.result = some replies)
    (hScan : scanReplies path replies [] [] = ScanResult.ok addrs errs)
    (hTtl : hop.hop = some ttl) (h255 : ttl ≠ 255)
    (hSingle : (if 1 < addrs.length then addrs.erase "*" else addrs) = [a])
    (hStar : a ≠ "*") :
    ∃ p', process_hop hop lookup path stats = Except.ok (false, p', stats) ∧
      (lookup.ip2ixpid a ≠ 0 →
        p'.rawEntries = path.rawEntries ++
          [PathToken.simple ("ix|" ++ toString (lookup.ip2ixpid a)),
           PathToken.simple
             ("ix|" ++ toString (lookup.ip2ixpid a) ++ ";as|" ++ lookup.ip2asn a),
           PathToken.simple ("ip|" ++ a),
           PathToken.simple ("as|" ++ lookup.ip2asn a)] ∧
        p'.rawIpEntries = path.rawIpEntries ++
          [PathToken.simple a, PathToken.simple a, PathToken.simple a,
           PathToken.simple a] ∧
        p'.ixpRawIndexes = path.ixpRawIndexes ++
          [path.rawEntries.length, path.rawEntries.length + 1,
           path.rawEntries.length + 2]) ∧
      (lookup.ip2ixpid a = 0 →
        p'.rawEntries = path.rawEntries ++ [PathToken.simple ("as|" ++ lookup.ip2asn a)] ∧
        p'.rawIpEntries = path.rawIpEntries ++ [PathToken.simple a] ∧
        p'.ixpRawIndexes = path.ixpRawIndexes) := by
  have hlen : ¬ addrs.length = 0 := by
    intro h0
    rw [List.length_eq_zero] at h0
    subst h0
    simp at hSingle
  refine ⟨singleBranch lookup path errs a, ?_, ?_, ?_⟩
  · simp [process_hop, hNoErr, hRes, hScan, hTtl, h255, hlen, hSingle]
  · intro hIxp
    cases he : errs.isEmpty <;>
      simp [singleBranch, hStar, hIxp, he, ASPath.append, ASPath.mark_hop_error]
  · intro hIxp
    cases he : errs.isEmpty <;>
      simp [singleBranch, hStar, hIxp, he, ASPath.append, ASPath.mark_hop_error]

/-- Witness for C5 at concrete hops: the IXP address `10.9.9.9` (IXP id 7,
AS 64510) and the plain address `10.1.1.1` (AS 64502). -/
theorem single_ixp_appends_witness :
    (∃ p', process_hop cHopIxp cLookup {} {} = Except.ok (false, p', {}) ∧
      (cLookup.ip2ixpid "10.9.9.9" ≠ 0 →
        p'.rawEntries = ASPath.rawEntries {} ++
          [PathToken.simple ("ix|" ++ toString (cLookup.ip2ixpid "10.9.9.9")),
           PathToken.simple ("ix|" ++ toString (cLookup.ip2ixpid "10.9.9.9") ++ ";as|"
             ++ cLookup.ip2asn "10.9.9.9"),
           PathToken.simple ("ip|" ++ "10.9.9.9"),
           PathToken.simple ("as|" ++ cLookup.ip2asn "10.9.9.9")] ∧
        p'.rawIpEntries = ASPath.rawIpEntries {} ++
          [PathToken.simple "10.9.9.9", PathToken.simple "10.9.9.9",
           PathToken.simple "10.9.9.9", PathToken.simple "10.9.9.9"] ∧
        p'.ixpRawIndexes = ASPath.ixpRawIndexes {} ++
          [(ASPath.rawEntries {}).length, (ASPath.rawEntries {}).length + 1,
           (ASPath.rawEntries {}).length + 2]) ∧
      (cLookup.ip2ixpid "10.9.9.9" = 0 →
        p'.rawEntries = ASPath.rawEntries {}
          ++ [PathToken.simple ("as|" ++ cLookup.ip2asn "10.9.9.9")] ∧
        p'.rawIpEntries = ASPath.rawIpEntries {} ++ [PathToken.simple "10.9.9.9"] ∧
        p'.ixpRawIndexes = ASPath.ixpRawIndexes {})) ∧
    (∃ p', process_hop cHopPlain cLookup {} {} = Except.ok (false, p', {}) ∧
      (cLookup.ip2ixpid "10.1.1.1" ≠ 0 →
        p'.rawEntries = ASPath.rawEntries {} ++
          [PathToken.simple ("ix|" ++ toString (cLookup.ip2ixpid "10.1.1.1")),
           PathToken.simple ("ix|" ++ toString (cLookup.ip2ixpid "10.1.1.1") ++ ";as|"
             ++ cLookup.ip2asn "10.1.1.1"),
           PathToken.simple ("ip|" ++ "10.1.1.1"),
           PathToken.simple ("as|" ++ cLookup.ip2asn "10.1.1.1")] ∧
        p'.rawIpEntries = ASPath.rawIpEntries {} ++
          [PathToken.simple "10.1.1.1", PathToken.simple "10.1.1.1",
           PathToken.simple "10.1.1.1", PathToken.simple "10.1.1.1"] ∧
        p'.ixpRawIndexes = ASPath.ixpRawIndexes {} ++
          [(ASPath.rawEntries {}).length, (ASPath.rawEntries {}).length + 1,
           (ASPath.rawEntries {}).length + 2]) ∧
      (cLookup.ip2ixpid "10.1.1.1" = 0 →
        p'.rawEntries = ASPath.rawEntries {}
          ++ [PathToken.simple ("as|" ++ cLookup.ip2asn "10.1.1.1")] ∧
        p'.rawIpEntries = ASPath.rawIpEntries {} ++ [PathToken.simple "10.1.1.1"] ∧
        p'.ixpRawIndexes = ASPath.ixpRawIndexes {})) :=
  ⟨single_ixp_appends cHopIxp cLookup {} {} [{ fromAddr := some "10.9.9.9" }]
      ["10.9.9.9"] [] 3 "10.9.9.9" rfl rfl rfl rfl (by decide) rfl (by decide),
   single_ixp_appends cHopPlain cLookup {} {} [{ fromAddr := some "10.1.1.1" }]
      ["10.1.1.1"] [] 3 "10.1.1.1" rfl rfl rfl rfl (by decide) rfl (by decide)⟩

theorem buildSet_lengths (l : IPLookup) (bs : List String) :
    (buildSet l bs).1.length = (buildSet l bs).2.1.length ∧
    (buildSet l bs).1.length
      = (bs.map fun b => if l.ip2ixpid b = 0 then 1 else 4).sum := by
  induction bs with
  | nil => simp [buildSet]
  | cons a rest ih =>
    by_cases h : l.ip2ixpid a = 0 <;>
      simp [buildSet, h, ih.1, ih.2] <;> omega

theorem buildSet_ip_groups (l : IPLookup) (bs : List String) :
    (buildSet l bs).2.1
      = (bs.map fun b => if l.ip2ixpid b = 0 then [b] else [b, b, b, b]).flatten := by
  induction bs with
  | nil => simp [buildSet]
  | cons a rest ih =>
    by_cases h : l.ip2ixpid a = 0 <;> simp [buildSet, h, ih]

/-- C6: for an ambiguous (multi-address) hop the AS-token and IP-token
tuples handed to `append_set` have equal length; members are visited in
lexicographically sorted order; an IXP-resolving member contributes four
aligned slots (its address repeated on the IP side) and a non-IXP member
one. -/
theorem set_branch_equal_tuples (hop : Hop) (lookup : IPLookup) (path : ASPath)
    (stats : Stats) (replies : List Reply) (addrs errs : List String)
    (ttl : Nat) (post : List String)
    (hNoErr : hop.error = false) (hRes : hop.result = some replies)
    (hScan : scanReplies path replies [] [] = ScanResult.ok addrs errs)
    (hTtl : hop.hop = some ttl) (h255 : ttl ≠ 255)
    (hPost : (if 1 < addrs.length then addrs.erase "*" else addrs) = post)
    (hMulti : 1 < post.length) :
    (∀ (l : IPLookup) (bs : List String),
      (buildSet l bs).1.length = (buildSet l bs).2.1.length ∧
      (buildSet l bs).1.length
        = (bs.map fun b => if l.ip2ixpid b = 0 then 1 else 4).sum ∧
      (buildSet l bs).2.1
        = (bs.map fun b => if l.ip2ixpid b = 0 then [b] else [b, b, b, b]).flatten) ∧
    List.Sorted (fun x y => x ≤ y) (sortStrings post) ∧
    ∃ p', process_hop hop lookup path stats = Except.ok (false, p', stats) ∧
      p'.rawEntries = path.rawEntries
        ++ [PathToken.tset (buildSet lookup (sortStrings post)).1] ∧
      p'.rawIpEntries = path.rawIpEntries
        ++ [PathToken.tset (buildSet lookup (sortStrings post)).2.1] := by
  refine ⟨fun l bs => ⟨(buildSet_lengths l bs).1, (buildSet_lengths l bs).2,
      buildSet_ip_groups l bs⟩, ?_, ?_⟩
  · exact List.sorted_insertionSort _ post
  · have hlen : ¬ addrs.length = 0 := by
      intro h0
      rw [List.length_eq_zero] at h0
      subst h0
      have hpost0 : post = [] := by simpa using hPost.symm
      rw [hpost0] at hMulti
      simp at hMulti
    refine ⟨?_, ?_, ?_, ?_⟩
    · exact (if errs.isEmpty then path
        else path.mark_hop_error (errorJoin errs)).append_set
          (buildSet lookup (sortStrings post)).1
          (buildSet lookup (sortStrings post)).2.1
          (buildSet lookup (sortStrings post)).2.2
    · simp [process_hop, hNoErr, hRes, hScan, hTtl, h255, hlen, hPost, hMulti]
    · cases he : errs.isEmpty <;>
        simp [he, ASPath.append_set, ASPath.mark_hop_error]
    · cases he : errs.isEmpty <;>
        simp [he, ASPath.append_set, ASPath.mark_hop_error]

/-- Witness for C6: the two-address hop `{10.2.2.2, 10.1.1.1}` is appended
as one sorted AS-set tuple with aligned IP tuple. -/
theorem set_branch_equal_tuples_witness :
    List.Sorted (fun x y => x ≤ y) (sortStrings ["10.2.2.2", "10.1.1.1"]) ∧
    ∃ p', process_hop cHopSet cLookup {} {} = Except.ok (false, p', {}) ∧
      p'.rawEntries = ASPath.rawEntries {}
        ++ [PathToken.tset (buildSet cLookup (sortStrings ["10.2.2.2", "10.1.1.1"])).1] ∧
      p'.rawIpEntries = ASPath.rawIpEntries {}
        ++ [PathToken.tset (buildSet cLookup (sortStrings ["10.2.2.2", "10.1.1.1"])).2.1] :=
  ⟨(set_branch_equal_tuples cHopSet cLookup {} {}
      [{ fromAddr := some "10.2.2.2" }, { fromAddr := some "10.1.1.1" }]
      ["10.2.2.2", "10.1.1.1"] [] 3 ["10.2.2.2", "10.1.1.1"]
      rfl rfl rfl rfl (by decide) (by decide) (by decide)).2.1,
   (set_branch_equal_tuples cHopSet cLookup {} {}
      [{ fromAddr := some "10.2.2.2" }, { fromAddr := some "10.1.1.1" }]
      ["10.2.2.2", "10.1.1.1"] [] 3 ["10.2.2.2", "10.1.1.1"]
      rfl rfl rfl rfl (by decide) (by decide) (by decide)).2.2⟩

theorem process_hop_single_eq (hop : Hop) (lookup : IPLookup) (path : ASPath)
    (stats : Stats) (replies : List Reply) (addrs errs : List String)
    (ttl : Nat) (x : String)
    (hNoErr : hop.error = false) (hRes : hop.result = some replies)
    (hScan : scanReplies path replies [] [] = ScanResult.ok addrs errs)
    (hTtl : hop.hop = some ttl) (h255 : ttl ≠ 255)
    (hx : (if 1 < addrs.length then addrs.erase "*" else addrs) = [x]) :
    process_hop hop lookup path stats
      = Except.ok (false, singleBranch lookup path errs x, stats) := by
  have hlen : ¬ addrs.length = 0 := by
    intro h0
    rw [List.length_eq_zero] at h0
    subst h0
    simp at hx
  simp [process_hop, hNoErr, hRes, hScan, hTtl, h255, hlen, hx]

theorem process_hop_set_eq (hop : Hop) (lookup : IPLookup) (path : ASPath)
    (stats : Stats) (replies : List Reply) (addrs errs : List String)
    (ttl : Nat) (post : List String)
    (hNoErr : hop.error = false) (hRes : hop.result = some replies)
    (hScan : scanReplies path replies [] [] = ScanResult.ok addrs errs)
    (hTtl : hop.hop = some ttl) (h255 : ttl ≠ 255)
    (hPost : (if 1 < addrs.length then addrs.erase "*" else addrs) = post)
    (hMulti : 1 < post.length) :
    process_hop hop lookup path stats
      = Except.ok (false,
          (if errs.isEmpty then path
           else path.mark_hop_error (errorJoin errs)).append_set
            (buildSet lookup (sortStrings post)).1
            (buildSet lookup (sortStrings post)).2.1
            (buildSet lookup (sortStrings post)).2.2, stats) := by
  have hlen : ¬ addrs.length = 0 := by
    intro h0
    rw [List.length_eq_zero] at h0
    subst h0
    have hpost0 : post = [] := by simpa using hPost.symm
    rw [hpost0] at hMulti
    simp at hMulti
  simp [process_hop, hNoErr, hRes, hScan, hTtl, h255, hlen, hPost, hMulti]

theorem singleBranch_marked_spec (lookup : IPLookup) (path : ASPath)
    (errs : List String) (a : String) (ha : a ≠ "*") (he : errs ≠ []) :
    (singleBranch lookup path errs a).attributes
      = path.attributes ++ [(path.rawEntries.length, errorJoin errs)] ∧
    (singleBranch lookup path errs a).errorsFlag = true ∧
    path.rawEntries.length < (singleBranch lookup path errs a).rawEntries.length := by
  have he2 : errs.isEmpty = false := by
    cases errs
    · exact absurd rfl he
    · rfl
  by_cases hIxp : lookup.ip2ixpid a = 0 <;>
    simp [singleBranch, ha, he2, hIxp, ASPath.append, ASPath.mark_hop_error]

/-- C9 (counterexample): a TTL-255 hail-mary hop with a usable reply
carrying inline error code `5` records *no* annotation at all — the hop is
replaced by the timeout placeholder before `mark_hop_error` is reached. -/
theorem hop255_error_not_recorded :
    scanReplies {} [{ fromAddr := some "10.1.1.1", err := some "5" }] [] []
      = ScanResult.ok ["10.1.1.1"] ["5"] ∧
    process_hop cHop255InlineErr cLookup {} {}
      = Except.ok (false, ASPath.flag_too_many_hops (ASPath.append {} "as|0" "*" false), {}) ∧
    (ASPath.flag_too_many_hops (ASPath.append {} "as|0" "*" false)).attributes = [] ∧
    (ASPath.flag_too_many_hops (ASPath.append {} "as|0" "*" false)).errorsFlag = false :=
  ⟨rfl, rfl, rfl, rfl⟩

/-- C9 (amended): for every hop that reaches classification (not aborted,
TTL ≠ 255) with at least one inline error code among its usable replies —
and whose replies never use the literal `*` as a source address — the
annotation recorded via `mark_hop_error` is the distinct error-code
strings sorted and joined by a single space (`errorJoin`), recorded against
the current position before the corresponding append/`append_set`
extends the path. -/
theorem hop_error_annotation (hop : Hop) (lookup : IPLookup) (path : ASPath)
    (stats : Stats) (replies : List Reply) (addrs errs : List String) (ttl : Nat)
    (hNoErr : hop.error = false) (hRes : hop.result = some replies)
    (hScan : scanReplies path replies [] [] = ScanResult.ok addrs errs)
    (hErrs : errs ≠ []) (hTtl : hop.hop = some ttl) (h255 : ttl ≠ 255)
    (hWf : ∀ r ∈ replies, r.fromAddr ≠ some "*") :
    ∃ p', process_hop hop lookup path stats = Except.ok (false, p', stats) ∧
      p'.attributes = path.attributes ++ [(path.rawEntries.length, errorJoin errs)] ∧
      p'.errorsFlag = true ∧
      path.rawEntries.length < p'.rawEntries.length := by
  have hND : addrs.Nodup :=
    scan_ok_nodup path replies [] [] addrs errs List.nodup_nil hScan
  have hReal : ∃ a ∈ addrs, a ≠ "*" :=
    scan_ok_err_real path replies [] [] addrs errs hWf
      (fun h => absurd rfl h) hScan hErrs
  obtain ⟨f, hf, hfne⟩ := hReal
  have he2 : errs.isEmpty = false := by
    cases errs
    · exact absurd rfl hErrs
    · rfl
  by_cases hA : 1 < addrs.length
  · by_cases hM : 1 < (addrs.erase "*").length
    · refine ⟨_, process_hop_set_eq hop lookup path stats replies addrs errs ttl
        (addrs.erase "*") hNoErr hRes hScan hTtl h255 (by simp [hA]) hM, ?_, ?_, ?_⟩ <;>
        simp [he2, ASPath.append_set, ASPath.mark_hop_error]
    · have hfpost : f ∈ addrs.erase "*" := (List.mem_erase_of_ne hfne).mpr hf
      have hlen1 : (addrs.erase "*").length = 1 := by
        have h0 : (addrs.erase "*") ≠ [] := List.ne_nil_of_mem hfpost
        have h1 : 0 < (addrs.erase "*").length := List.length_pos.mpr h0
        omega
      obtain ⟨y, hy⟩ := List.length_eq_one.mp hlen1
      have hfy : f = y := by
        rw [hy] at hfpost
        simpa using hfpost
      subst hfy
      have heq := process_hop_single_eq hop lookup path stats replies addrs errs ttl
        f hNoErr hRes hScan hTtl h255 (by simp [hA, hy])
      obtain ⟨h1, h2, h3⟩ := singleBranch_marked_spec lookup path errs f hfne hErrs
      exact ⟨_, heq, h1, h2, h3⟩
  · have hlen1 : addrs.length = 1 := by
      have h0 : addrs ≠ [] := List.ne_nil_of_mem hf
      have h1 : 0 < addrs.length := List.length_pos.mpr h0
      omega
    obtain ⟨y, hy⟩ := List.length_eq_one.mp hlen1
    have hfy : f = y := by
      rw [hy] at hf
      simpa using hf
    subst hfy
    have heq := process_hop_single_eq hop lookup path stats replies addrs errs ttl
      f hNoErr hRes hScan hTtl h255 (by simp [hA, hy])
    obtain ⟨h1, h2, h3⟩ := singleBranch_marked_spec lookup path errs f hfne hErrs
    exact ⟨_, heq, h1, h2, h3⟩

/-- Witness for C9: the single usable reply with error code `5` records
annotation `"5"` at position 0 before appending the AS entry. -/
theorem hop_error_annotation_witness :
    ∃ p', process_hop cHopInlineErr cLookup {} {} = Except.ok (false, p', {}) ∧
      p'.attributes = ASPath.attributes {}
        ++ [((ASPath.rawEntries {}).length, errorJoin ["5"])] ∧
      p'.errorsFlag = true ∧
      (ASPath.rawEntries {}).length < p'.rawEntries.length :=
  hop_error_annotation cHopInlineErr cLookup {} {}
    [{ fromAddr := some "10.1.1.1", err := some "5" }] ["10.1.1.1"] ["5"] 3
    rfl rfl rfl (by decide) rfl (by decide) (by decide)

/-- C4 (counterexample): two identical messages whose shared
`(source address, prefix)` key never enters `seen_peer_prefixes`, because
the first is rejected (unreachable path): the second is *not* counted as a
duplicate — `duplicate` stays 0 — contradicting the claim for arbitrary
pairs sharing a key. -/
theorem duplicate_counterexample :
    process_message cMsgErrHop cLookup [] [] {} 1000 none none none false
      = Except.ok (none, [], [(42, "10.0.0.1")],
          { total := 1, accepted := 1, dnf := 1 }) ∧
    process_message cMsgErrHop cLookup [] [(42, "10.0.0.1")]
        { total := 1, accepted := 1, dnf := 1 } 1000 none none none false
      = Except.ok (none, [], [(42, "10.0.0.1")],
          { total := 2, accepted := 2, dnf := 2 }) ∧
    ({ total := 2, accepted := 2, dnf := 2 } : Stats).duplicate = 0 :=
  ⟨rfl, rfl, rfl⟩

/-- C4 (amended): when duplicates are not enabled and a message reaches the
dedup check (its destination and source resolve) with its
`(source address, prefix)` key already marked seen — which happens exactly
when an earlier message with that key was accepted — processing it returns
the empty dict and increments the `duplicate` counter, touching nothing
else. -/
theorem duplicate_key_rejected (msg : Msg) (lookup : IPLookup)
    (seen : List (String × String)) (pmap : List (Nat × String)) (stats : Stats)
    (uts : Nat) (dst_addr msgFrom pfx : String)
    (hDst : get_dst_addr msg = some dst_addr) (hDstNe : dst_addr ≠ "")
    (hAsn : lookup.ip2asn dst_addr ≠ "0")
    (hPfx : IPLookup.ip2prefix lookup dst_addr = pfx) (hPfxNe : pfx ≠ "")
    (hFrom : msg.fromAddr = some msgFrom) (hFromNe : msgFrom ≠ "")
    (hPeer : lookup.ip2asn msgFrom ≠ "0")
    (hSeen : (msgFrom, pfx) ∈ seen) :
    process_message msg lookup seen pmap stats uts none none none false
      = Except.ok (none, seen, pmap, Stats.incDuplicate (Stats.incTotal stats)) := by
  simp [process_message, checkFilter, checkProbeFilter, hDst, hDstNe, hAsn, hPfx,
    hPfxNe, hFrom, hFromNe, hPeer, hSeen]

/-- Witness for C4: with the key pre-seeded in `seen_peer_prefixes`, the
good message is rejected as a duplicate. -/
theorem duplicate_key_rejected_witness :
    process_message cMsgGood cLookup [("10.0.0.1", "192.0.2.0/24")] [] {} 1000
        none none none false
      = Except.ok (none, [("10.0.0.1", "192.0.2.0/24")], [],
          Stats.incDuplicate (Stats.incTotal {})) :=
  duplicate_key_rejected cMsgGood cLookup [("10.0.0.1", "192.0.2.0/24")] [] {} 1000
    "192.0.2.9" "10.0.0.1" "192.0.2.0/24" rfl (by decide) (by decide) rfl
    (by decide) rfl (by decide) (by decide) (by decide)

theorem processPath_seen_unchanged (lookup : IPLookup)
    (seen : List (String × String)) (pmap : List (Nat × String)) (stats : Stats)
    (uts : Nat) (msgFrom peer_asn dst_asn pfx : String) (prb : Nat)
    (traceroute : List Hop)
    (out : Option OutputRecord) (seen' : List (String × String))
    (pmap' : List (Nat × String)) (stats' : Stats)
    (h : processPath lookup seen pmap stats uts msgFrom peer_asn dst_asn pfx prb
          traceroute = Except.ok (out, seen', pmap', stats')) :
    (out = none → seen' = seen) ∧
    (∀ r, out = some r → seen' = addSeen (r.peer_address, r.fields.pfx) seen) := by
  unfold processPath at h
  dsimp only at h
  repeat' split at h
  all_goals (try exact Except.noConfusion h)
  all_goals
    (injection h with h2;
     simp only [Prod.mk.injEq] at h2;
     obtain ⟨ho, hs, hm, hst⟩ := h2;
     subst ho;
     subst hs;
     simp)

/-- C3 (counterexample): a message that passes the pre-path checks but is
rejected for an unreachable path still increments `accepted` — `accepted`
is counted *before* hop processing, not in the accepted terminal state. -/
theorem accepted_incremented_on_rejection :
    process_message cMsgErrHop cLookup [] [] {} 1000 none none none false
      = Except.ok (none, [], [(42, "10.0.0.1")],
          { total := 1, accepted := 1, dnf := 1 }) ∧
    ({ total := 1, accepted := 1, dnf := 1 } : Stats).accepted = 1 :=
  ⟨rfl, rfl⟩

/-- C3 (amended): the dedup key is marked seen only in the accepted
terminal state — a rejected message (empty-dict result) leaves
`seen_peer_prefixes` unchanged, and an accepted message adds exactly its
`(peer address, prefix)` key; the `accepted` counter, however, is
incremented before path processing, so unreachable-path /
empty-reduced-path / single-as-path rejections still count it. -/
theorem seen_marked_only_on_accept (msg : Msg) (lookup : IPLookup)
    (seen : List (String × String)) (pmap : List (Nat × String)) (stats : Stats)
    (uts : Nat) (mi pi : Option (List Nat)) (ta : Option String) (incl : Bool)
    (out : Option OutputRecord) (seen' : List (String × String))
    (pmap' : List (Nat × String)) (stats' : Stats)
    (h : process_message msg lookup seen pmap stats uts mi pi ta incl
          = Except.ok (out, seen', pmap', stats')) :
    (out = none → seen' = seen) ∧
    (∀ r, out = some r → seen' = addSeen (r.peer_address, r.fields.pfx) seen) := by
  unfold process_message at h
  dsimp only at h
  repeat' split at h
  all_goals (try exact Except.noConfusion h)
  all_goals (try exact processPath_seen_unchanged _ _ _ _ _ _ _ _ _ _ _ _ _ _ _ h)
  all_goals
    (injection h with h2;
     simp only [Prod.mk.injEq] at h2;
     obtain ⟨ho, hs, hm, hst⟩ := h2;
     subst ho;
     subst hs;
     simp)

/-- Witness for C3: accepting `cMsgGood` adds exactly its
`(peer address, prefix)` key to the previously empty dedup set. -/
theorem seen_marked_only_on_accept_witness :
    [("10.0.0.1", "192.0.2.0/24")]
      = addSeen (cGoodRet.peer_address, cGoodRet.fields.pfx) [] :=
  (seen_marked_only_on_accept cMsgGood cLookup [] [] {} 1000 none none none false
    (some cGoodRet) [("10.0.0.1", "192.0.2.0/24")] [(42, "10.0.0.1")]
    { total := 1, accepted := 1, used := 1, scopes := ["64501"] } rfl).2
    cGoodRet rfl

theorem process_hop_ok (hop : Hop) (lookup : IPLookup) (path : ASPath) (stats : Stats)
    (h : hop.error = true ∨ hop.result.isSome = true) :
    ∃ v, process_hop hop lookup path stats = Except.ok v := by
  by_cases herr : hop.error = true
  · refine ⟨(true, path, stats.incDnf), ?_⟩
    simp [process_hop, herr]
  · have herr2 : hop.error = false := by
      revert herr
      cases hop.error <;> simp
    have hsome : hop.result.isSome = true := h.resolve_left herr
    obtain ⟨rr, hrr⟩ := Option.isSome_iff_exists.mp hsome
    cases hscan : scanReplies path rr [] [] with
    | dnf =>
      refine ⟨(true, path, stats.incDnf), ?_⟩
      simp [process_hop, herr2, hrr, hscan]
    | ok addrs errs =>
      by_cases hlen : addrs.length = 0
      · refine ⟨(true, path, stats.incDnf), ?_⟩
        simp [process_hop, herr2, hrr, hscan, hlen]
      · cases httl : hop.hop with
        | none =>
          refine ⟨(true, path, stats.incDnf), ?_⟩
          simp [process_hop, herr2, hrr, hscan, hlen, httl]
        | some ttl =>
          by_cases h255 : ttl = 255
          · refine ⟨(false, (path.append "as|0" "*" false).flag_too_many_hops, stats), ?_⟩
            simp [process_hop, herr2, hrr, hscan, hlen, httl, h255]
          · have haddr2 : (if 1 < addrs.length then addrs.erase "*" else addrs) ≠ [] := by
              split
              · next hgt =>
                intro h0
                have h1 : addrs.length - 1 ≤ (addrs.erase "*").length := by
                  rw [List.length_erase]
                  split <;> omega
                rw [h0] at h1
                simp at h1
                omega
              · intro h0
                exact hlen (by simp [h0])
            by_cases hmulti :
                1 < (if 1 < addrs.length then addrs.erase "*" else addrs).length
            · exact ⟨_, process_hop_set_eq hop lookup path stats rr addrs errs ttl
                _ herr2 hrr hscan httl h255 rfl hmulti⟩
            · have hlen1 :
                  (if 1 < addrs.length then addrs.erase "*" else addrs).length = 1 := by
                have h1 := List.length_pos.mpr haddr2
                omega
              obtain ⟨a, ha⟩ := List.length_eq_one.mp hlen1
              exact ⟨_, process_hop_single_eq hop lookup path stats rr addrs errs ttl
                a herr2 hrr hscan httl h255 ha⟩

theorem processHops_ok (lookup : IPLookup) :
    ∀ (trs : List Hop) (path : ASPath) (stats : Stats),
      (∀ hop ∈ trs, hop.error = true ∨ hop.result.isSome = true) →
      ∃ v, processHops lookup trs path stats = Except.ok v := by
  intro trs
  induction trs with
  | nil => exact fun path stats _ => ⟨_, rfl⟩
  | cons hop rest ih =>
    intro path stats hall
    obtain ⟨⟨abort, path2, stats2⟩, hv⟩ :=
      process_hop_ok hop lookup path stats (hall hop (by simp))
    by_cases hab : abort = true
    · refine ⟨(true, path2, stats2), ?_⟩
      simp [processHops, hv, hab]
    · obtain ⟨v2, hv2⟩ := ih path2 stats2 (fun h hm => hall h (by simp [hm]))
      refine ⟨v2, ?_⟩
      simp [processHops, hv, hab, hv2]

theorem processPath_ok (lookup : IPLookup)
    (seen : List (String × String)) (pmap : List (Nat × String)) (stats : Stats)
    (uts : Nat) (msgFrom peer_asn dst_asn pfx : String) (prb : Nat)
    (traceroute : List Hop)
    (hall : ∀ hop ∈ traceroute, hop.error = true ∨ hop.result.isSome = true) :
    ∃ v, processPath lookup seen pmap stats uts msgFrom peer_asn dst_asn pfx prb
          traceroute = Except.ok v := by
  obtain ⟨⟨abort, path2, stats2⟩, hv⟩ :=
    processHops_ok lookup traceroute (ASPath.set_start_end_asn {} peer_asn dst_asn)
      stats hall
  unfold processPath
  try dsimp only
  rw [hv]
  try dsimp only
  by_cases hab : abort = true
  · subst hab
    exact ⟨_, rfl⟩
  · have hab2 : abort = false := by
      revert hab
      cases abort <;> simp
    subst hab2
    try dsimp only
    repeat' split
    all_goals exact ⟨_, rfl⟩

/-- C1 (counterexample): a hop carrying neither an `error` key nor a
`result` key makes `process_message` raise a `KeyError` (the unguarded
`hop['result']` access) instead of rejecting the record; likewise a
message lacking `msm_id` raises under an active measurement-id filter
(the unguarded `msg['msm_id']` access at line 175). -/
theorem missing_result_key_raises :
    ({ hop := some 1 } : Hop).error = false ∧
    ({ hop := some 1 } : Hop).result = none ∧
    process_message cMsgBadHop cLookup [] [] {} 1000 none none none false
      = Except.error "KeyError" ∧
    cMsgNoMsm.msm_id = none ∧
    process_message cMsgNoMsm cLookup [] [] {} 1000 (some [1]) none none false
      = Except.error "KeyError" :=
  ⟨rfl, rfl, rfl, rfl, rfl⟩

/-- C1 (amended): per-record processing never raises *provided the record
is structurally well-formed* — the message carries `msm_id`, `result` and
`prb_id` and every hop carries `error` or `result`; the guarded failures
(missing destination/source address, unresolvable ASN or prefix, hop-level
and reply-level error markers, missing TTL) all degrade to counted
rejections returning the empty dict.  Without that proviso a missing
`hop['result']`, `msg['result']`, `msg['prb_id']` or — under an active
measurement-id filter — `msg['msm_id']` raises a `KeyError` out of
`process_message`. -/
theorem wellformed_no_exception (msg : Msg) (lookup : IPLookup)
    (seen : List (String × String)) (pmap : List (Nat × String)) (stats : Stats)
    (uts : Nat) (mi pi : Option (List Nat)) (ta : Option String) (incl : Bool)
    (traceroute : List Hop) (m p : Nat)
    (hMsm : msg.msm_id = some m)
    (hRes : msg.result = some traceroute) (hPrb : msg.prb_id = some p)
    (hHops : ∀ hop ∈ traceroute, hop.error = true ∨ hop.result.isSome = true) :
    ∃ v, process_message msg lookup seen pmap stats uts mi pi ta incl
          = Except.ok v := by
  have hpf : ∃ b, checkProbeFilter msg pi = Except.ok b := by
    unfold checkProbeFilter
    cases pi with
    | none => exact ⟨_, rfl⟩
    | some ids =>
      rw [hPrb]
      exact ⟨_, rfl⟩
  obtain ⟨b0, hb0⟩ := hpf
  have hcf : ∃ b, checkFilter msg mi pi = Except.ok b := by
    unfold checkFilter
    cases mi with
    | none => exact ⟨b0, hb0⟩
    | some ids =>
      rw [hMsm]
      try dsimp only
      split
      · exact ⟨_, rfl⟩
      · exact ⟨b0, hb0⟩
  obtain ⟨b, hb⟩ := hcf
  unfold process_message
  rw [hb]
  cases b
  · try dsimp only
    rw [hPrb, hRes]
    try dsimp only
    repeat' split
    all_goals (try exact ⟨_, rfl⟩)
    all_goals exact processPath_ok lookup _ _ _ _ _ _ _ _ _ _ hHops
  · exact ⟨_, rfl⟩

/-- Witness for C1: the well-formed two-hop message processes without an
exception. -/
theorem wellformed_no_exception_witness :
    ∃ v, process_message cMsgGood cLookup [] [] {} 1000 none none none false
          = Except.ok v :=
  wellformed_no_exception cMsgGood cLookup [] [] {} 1000 none none none false
    _ 1 42 rfl rfl rfl (by decide)
